import Mathlib

/-!
Shallow embedding of the HelloDev Azure DevOps token broker:
the token cache and auth-error classifier (src/ADOAuthHelper.js),
the background relay (background script), and the native messaging
host (framing, CLI locator, token acquisition).

State that JavaScript keeps in the environment is passed explicitly:
the single localStorage slot is a value of type `Stored`, time is an
integer of epoch milliseconds, and the `Date` parser and the relay
round trip are parameters, since their outcomes come from outside the
code under study.
-/

namespace HelloDev

/-- JavaScript string-includes: `s.includes(pat)` on the character list level. -/
def charsContains (pat : List Char) : List Char → Bool
  | [] => pat.isEmpty
  | c :: rest => pat.isPrefixOf (c :: rest) || charsContains pat rest

/-- JavaScript `s.includes(pat)` for strings. -/
def strContains (s pat : String) : Bool :=
  charsContains pat.toList s.toList

/-- JavaScript truthiness of a possibly-missing string field: a field is
truthy exactly when it is present and non-empty. -/
def jsTruthy : Option String → Bool
  | none => false
  | some s => !s.isEmpty

/-! ## Token cache (ADOAuthHelper.js)

The localStorage slot `ado_auth_token` is modelled by `Stored`, the
JS-observable classification of the slot contents as seen through
`localStorage.getItem` plus `JSON.parse`:
`absent` is a missing key (`getItem` returns null) or an empty string
(falsy, so the `!cached` check fires); `malformed` is stored text on
which `JSON.parse` throws (non-JSON or truncated JSON); `obj a e` is a
parsed JSON object whose `accessToken` and `expiresOn` string fields
are present (`some`) or missing/falsy (`none`). -/

inductive Stored
  | absent
  | malformed (raw : String)
  | obj (accessToken expiresOn : Option String)
deriving DecidableEq, Repr

/-- A well-formed cache entry as returned by `getCachedToken`. -/
structure CacheEntry where
  accessToken : String
  expiresOn : String
deriving DecidableEq, Repr

/-- TOKEN_EXPIRY_BUFFER_MS = 60 * 1000. -/
def TOKEN_EXPIRY_BUFFER_MS : Int := 60 * 1000

/-- ADOAuthHelper.getCachedToken: reads the slot inside try/catch; returns
null when the slot is absent, when JSON.parse throws, or when the parsed
object lacks a truthy accessToken or expiresOn; otherwise the parsed data. -/
def getCachedToken : Stored → Option CacheEntry
  | .absent => none
  | .malformed _ => none
  | .obj a e =>
    if jsTruthy a && jsTruthy e then some ⟨a.getD "", e.getD ""⟩ else none

/-- ADOAuthHelper.isTokenValid: false when getCachedToken is null; otherwise
compares `new Date(expiresOn).getTime() - Date.now()` against the buffer.
`dateParse` models `new Date(s).getTime()`, with `none` for NaN (an invalid
date); a NaN comparison is false in JS. -/
def isTokenValid (dateParse : String → Option Int) (slot : Stored) (now : Int) : Bool :=
  match getCachedToken slot with
  | none => false
  | some cached =>
    match dateParse cached.expiresOn with
    | none => false
    | some expiryTime => decide (expiryTime - now > TOKEN_EXPIRY_BUFFER_MS)

/-- ADOAuthHelper.getValidToken: the cached accessToken if valid, else null
(`getCachedToken()?.accessToken || null`). -/
def getValidToken (dateParse : String → Option Int) (slot : Stored) (now : Int) :
    Option String :=
  if isTokenValid dateParse slot now then
    match getCachedToken slot with
    | none => none
    | some cached => if cached.accessToken.isEmpty then none else some cached.accessToken
  else none

/-- ADOAuthHelper.cacheToken: overwrites the slot with the serialized pair. -/
def cacheToken (accessToken expiresOn : String) : Stored :=
  .obj (some accessToken) (some expiresOn)

/-- ADOAuthHelper.clearCache: removes the slot. -/
def clearCache (_slot : Stored) : Stored :=
  .absent

/-- Outcome of one `sendMessage({type: ADO_GET_TOKEN})` round trip through
the relay, as observed by the caller: the promise rejects with an error
message, or resolves with a response object whose accessToken and expiresOn
fields may each be missing or empty. -/
inductive RelayOutcome
  | reject (msg : String)
  | respond (accessToken expiresOn : Option String)
deriving DecidableEq, Repr

/-- Result of getToken / refreshToken: a returned token or a thrown error. -/
inductive TokenResult
  | ok (token : String)
  | error (msg : String)
deriving DecidableEq, Repr

/-- The explicit error thrown when the relay yields neither token nor error. -/
def noTokenMsg : String :=
  "No access token received. Make sure az cli is installed and you are logged in (az login)."

/-- Result of a getToken / refreshToken call: the returned or thrown value,
the cache slot afterwards, and how many relay round trips were issued. -/
structure GetTokenOut where
  result : TokenResult
  slot : Stored
  relayCalls : Nat
deriving DecidableEq, Repr

/-- ADOAuthHelper.getToken: fast path returns a valid cached token with no
relay round trip; otherwise one sendMessage round trip; a rejection is
rethrown; a response with truthy accessToken and expiresOn is cached and its
token returned; any other response falls through to the explicit error. -/
def getToken (dateParse : String → Option Int) (slot : Stored) (now : Int)
    (relay : RelayOutcome) : GetTokenOut :=
  match getValidToken dateParse slot now with
  | some cachedToken => ⟨.ok cachedToken, slot, 0⟩
  | none =>
    match relay with
    | .reject msg => ⟨.error msg, slot, 1⟩
    | .respond a e =>
      if jsTruthy a && jsTruthy e then
        ⟨.ok (a.getD ""), cacheToken (a.getD "") (e.getD ""), 1⟩
      else
        ⟨.error noTokenMsg, slot, 1⟩

set_option linter.unusedVariables false in
/-- ADOAuthHelper.refreshToken: clears the slot, fires the best-effort
ADO_CLEAR_TOKEN_CACHE notification (its rejection is swallowed by
`.catch(() => void 0)`, so `clearNotifyFailed` influences nothing), then one
sendMessage acquisition identical to the slow path of getToken. -/
def refreshToken (clearNotifyFailed : Bool) (slot : Stored)
    (relay : RelayOutcome) : GetTokenOut :=
  let slot1 := clearCache slot
  match relay with
  | .reject msg => ⟨.error msg, slot1, 1⟩
  | .respond a e =>
    if jsTruthy a && jsTruthy e then
      ⟨.ok (a.getD ""), cacheToken (a.getD "") (e.getD ""), 1⟩
    else
      ⟨.error noTokenMsg, slot1, 1⟩

/-- The fixed keyword set of ADOAuthHelper.handleAuthError. -/
def authKeywords : List String :=
  ["login", "401", "authentication", "token", "unauthorized"]

/-- JavaScript `s.toLowerCase()`, character-wise (the messages matched here
are ASCII, where the JS mapping and Char.toLower agree). -/
def toLowerJS (s : String) : String :=
  String.mk (s.toList.map Char.toLower)

/-- Whether `authKeywords.some(k => errorMessage.toLowerCase().includes(k))`. -/
def isAuthErrorMsg (errorMessage : String) : Bool :=
  authKeywords.any (fun k => strContains (toLowerJS errorMessage) k)

/-- ADOAuthHelper.handleAuthError: clears the cache iff a keyword matches and
returns whether one did (the relay clear notification is best-effort and does
not touch the local slot). -/
def handleAuthError (errorMessage : String) (slot : Stored) : Bool × Stored :=
  let isAuthError := isAuthErrorMsg errorMessage
  if isAuthError then (true, clearCache slot) else (false, slot)

/-! ## Native messaging framing (host readMessage / writeMessage)

A byte is a Nat below 256. `readMessage` buffers incoming body chunks and
only parses once the accumulated length reaches the length declared in the
4-byte little-endian header; the parsed body is the first `messageLength`
bytes of the concatenation. The stream is modelled as the list of chunks
the readable events deliver after the header. -/

/-- Buffer.readUInt32LE over a 4-byte list. -/
def readUInt32LE : List Nat → Option Nat
  | [b0, b1, b2, b3] => some (b0 + 256 * (b1 + 256 * (b2 + 256 * b3)))
  | _ => none

/-- Buffer.writeUInt32LE: the 4-byte little-endian encoding of a length. -/
def writeUInt32LE (n : Nat) : List Nat :=
  [n % 256, n / 256 % 256, n / 65536 % 256, n / 16777216 % 256]

/-- Total number of buffered bytes (`chunks.reduce((sum, c) => sum + c.length, 0)`). -/
def totalLen (chunks : List (List Nat)) : Nat :=
  (chunks.map List.length).sum

/-- The chunk-accumulation loop of readMessage after the header was read:
each arriving chunk is pushed; once the total reaches messageLength the body
is `Buffer.concat(chunks).slice(0, messageLength)`; until then nothing is
parsed (`none`). -/
def readMessageBody (messageLength : Nat) :
    List (List Nat) → List (List Nat) → Option (List Nat)
  | _, [] => none
  | acc, c :: rest =>
    let acc1 := acc ++ [c]
    if messageLength ≤ totalLen acc1 then
      some ((acc1.flatten).take messageLength)
    else
      readMessageBody messageLength acc1 rest

/-- readMessage on a frame: decode the 4-byte header, then accumulate the
body chunks. -/
def readMessage (header : List Nat) (bodyChunks : List (List Nat)) :
    Option (List Nat) :=
  match readUInt32LE header with
  | none => none
  | some messageLength => readMessageBody messageLength [] bodyChunks

/-! ## CLI locator and token acquisition (native host) -/

/-- Environment the native host runs in: the platform, whether the bare
`az --version` probe succeeds via the inherited PATH, the home directory and
the set of paths for which `fs.existsSync` is true. -/
structure HostEnv where
  isWindows : Bool
  pathWorks : Bool
  home : String
  existingPaths : List String
deriving Repr

/-- The ordered well-known installation paths probed by findAzCli. -/
def possiblePaths (isWindows : Bool) (home : String) : List String :=
  if isWindows then
    ["C:\\Program Files (x86)\\Microsoft SDKs\\Azure\\CLI2\\wbin\\az.cmd",
     "C:\\Program Files\\Microsoft SDKs\\Azure\\CLI2\\wbin\\az.cmd",
     home ++ "\\AppData\\Local\\Programs\\Azure CLI\\wbin\\az.cmd",
     home ++ "\\scoop\\shims\\az.cmd",
     home ++ "\\AppData\\Local\\Programs\\Python\\Python39\\Scripts\\az.cmd",
     home ++ "\\AppData\\Local\\Programs\\Python\\Python310\\Scripts\\az.cmd",
     home ++ "\\AppData\\Local\\Programs\\Python\\Python311\\Scripts\\az.cmd",
     home ++ "\\AppData\\Local\\Programs\\Python\\Python312\\Scripts\\az.cmd"]
  else
    ["/usr/local/bin/az",
     "/opt/homebrew/bin/az",
     "/usr/bin/az",
     "/usr/local/bin/az",
     home ++ "/.local/bin/az"]

/-- findAzCli: the bare command name if the PATH probe succeeds, otherwise
the first well-known path that exists, otherwise null. -/
def findAzCli (env : HostEnv) : Option String :=
  if env.pathWorks then
    some (if env.isWindows then "az.cmd" else "az")
  else
    (possiblePaths env.isWindows env.home).find? (fun p => env.existingPaths.contains p)

/-- One execSync invocation of the identity tool made by getAzureDevOpsToken,
with the command string and the timeout option passed to execSync. -/
structure Spawn where
  cmd : String
  timeoutMs : Nat
deriving DecidableEq, Repr

/-- The `az account show` login probe invocation (timeout: 10000). -/
def accountShowSpawn (azPath : String) : Spawn :=
  ⟨"\"" ++ azPath ++ "\" account show", 10000⟩

/-- The Azure DevOps resource id used for the token fetch. -/
def ADO_RESOURCE : String := "499b84ac-1321-427f-aa17-267ca6975798"

/-- The `az account get-access-token` invocation (timeout: 30000). -/
def fetchTokenSpawn (azPath : String) : Spawn :=
  ⟨"\"" ++ azPath ++ "\" account get-access-token --resource " ++ ADO_RESOURCE ++ " -o json",
   30000⟩

/-- Outcome of one execSync call: normal stdout, or a thrown error carrying
a message and the captured stderr/stdout texts (empty when absent). -/
inductive ExecOutcome
  | ok (out : String)
  | fail (emsg stderrS stdoutS : String)
deriving DecidableEq, Repr

/-- Result of `JSON.parse(result.trim())` on the token fetch output: the
parse throws (with the message of the thrown SyntaxError), or yields an
object whose accessToken and expiresOn string fields may be missing/falsy. -/
inductive ParsedJson
  | invalid (emsg : String)
  | obj (accessToken expiresOn : Option String)
deriving DecidableEq, Repr

/-- A response object the host writes: a token or an error with optional
details. -/
inductive AdoResult
  | token (accessToken : String) (expiresOn : Option String)
  | err (msg : String) (details : Option String)
deriving DecidableEq, Repr

/-- `[stderr, stdout, msg].filter(Boolean).join(newline)`. -/
def joinDetails (parts : List String) : String :=
  String.intercalate "\n" (parts.filter (fun s => !s.isEmpty))

/-- The install pointer named when the CLI is not found. -/
def installUrl (isWindows : Bool) : String :=
  if isWindows then "https://aka.ms/installazurecliwindows"
  else "https://aka.ms/InstallAzureCLIDeb"

/-- The tool-not-found error message. -/
def azNotFoundMsg (isWindows : Bool) : String :=
  "Azure CLI (az) not found. Install from " ++ installUrl isWindows

/-- The message returned when the login probe fails for any reason. -/
def notLoggedInMsg : String :=
  "Not logged in to Azure CLI. Open a terminal and run: az login"

/-- The message returned when the token fetch execSync fails for any reason. -/
def fetchFailedMsg : String := "Failed to get access token"

/-- The message of the distinct timed-out category of the outer catch. -/
def timedOutMsg : String :=
  "Azure CLI timed out. Open a terminal and run: az login"

/-- The outer catch of getAzureDevOpsToken: classifies an escaped exception
by substring search over its message. -/
def classifyOuter (emsg stderrS stdoutS : String) : AdoResult :=
  if strContains emsg "ETIMEDOUT" || strContains emsg "timeout" then
    .err timedOutMsg (some (joinDetails [stderrS, stdoutS, emsg]))
  else if strContains emsg "AADSTS" then
    .err "Azure token expired. Open a terminal and run: az login"
      (some (joinDetails [stderrS, stdoutS, emsg]))
  else
    .err ("Failed to get token: " ++ emsg) (some (joinDetails [stderrS, stdoutS, emsg]))

/-- getAzureDevOpsToken of the native host, also recording each identity-tool
execSync invocation its body makes (the locator runs only its version/health
probe internally, before any of these). The login probe failure is caught by
its inner try/catch and mapped to the not-logged-in error whatever the
failure was; likewise the token fetch failure maps to fetchFailedMsg; only
exceptions outside those two inner handlers (here: JSON.parse of the fetch
output throwing) reach the outer classification. -/
def getAzureDevOpsToken (env : HostEnv) (accountShow tokenFetch : ExecOutcome)
    (parse : String → ParsedJson) : AdoResult × List Spawn :=
  match findAzCli env with
  | none => (.err (azNotFoundMsg env.isWindows) none, [])
  | some azPath =>
    match accountShow with
    | .fail emsg stderrS stdoutS =>
      (.err notLoggedInMsg (some (joinDetails [stderrS, stdoutS, emsg])),
       [accountShowSpawn azPath])
    | .ok _ =>
      let spawns := [accountShowSpawn azPath, fetchTokenSpawn azPath]
      match tokenFetch with
      | .fail emsg stderrS stdoutS =>
        (.err fetchFailedMsg (some (joinDetails [stderrS, stdoutS, emsg])), spawns)
      | .ok result =>
        match parse result.trim with
        | .invalid emsg => (classifyOuter emsg "" "", spawns)
        | .obj accessToken expiresOn =>
          if jsTruthy accessToken then
            (.token (accessToken.getD "") expiresOn, spawns)
          else
            (.err "Empty token received. Try running: az login" (some result), spawns)

/-! ## Background relay (background script getAzureDevOpsToken) -/

/-- A response object arriving on the native port, as the relay sees it. -/
structure HostMsg where
  error : Option String
  details : Option String
  accessToken : Option String
  expiresOn : Option String
deriving DecidableEq, Repr

/-- What the relay resolves the pending page request with. -/
inductive RelayReply
  | err (msg : String) (details : Option String)
  | tok (accessToken : String) (expiresOn : Option String)
deriving DecidableEq, Repr

/-- The onMessage handler of the relay: an error field wins, then a truthy
accessToken, otherwise the invalid-response error. -/
def relayOnMessage (r : HostMsg) : RelayReply :=
  if jsTruthy r.error then .err (r.error.getD "") r.details
  else if jsTruthy r.accessToken then .tok (r.accessToken.getD "") r.expiresOn
  else .err "Invalid response from native host" none

/-- The first native-port event that settles (or fails to settle) one relay
round trip: connectNative throwing synchronously, a response message, or the
port disconnecting with `chrome.runtime.lastError` as the disconnect reason
(Chrome sets it for a host that is not installed, fails to start, exits
without responding, or a channel that closes unexpectedly; `none` models a
disconnect without an error). -/
inductive NativeEvent
  | connectThrew (msg : String)
  | message (r : HostMsg)
  | disconnected (lastError : Option String)
deriving DecidableEq, Repr

/-- The native-host-unavailable error message built by the onDisconnect
listener. -/
def nativeHostErrMsg (lastError : String) : String :=
  "Native host error: " ++ lastError ++ ". Make sure the native host is installed."

/-- The relay promise body of getAzureDevOpsToken: resolve on a message, on
a disconnect that carries lastError, or on a synchronous exception; `none`
means the promise is never resolved by this event. -/
def relayGetToken : NativeEvent → Option RelayReply
  | .connectThrew msg => some (.err msg none)
  | .message r => some (relayOnMessage r)
  | .disconnected (some lastError) => some (.err (nativeHostErrMsg lastError) none)
  | .disconnected none => none

/-- A host environment on which the CLI locator succeeds via PATH. -/
def envFound : HostEnv :=
  ⟨false, true, "/home/user", []⟩

/-- A host environment on which the CLI locator reports not-found. -/
def envNoAz : HostEnv :=
  ⟨false, false, "/home/user", []⟩

/-! ## Helper lemmas -/

theorem charsContains_append_left (l1 l2 pat : List Char)
    (h : charsContains pat l2 = true) : charsContains pat (l1 ++ l2) = true := by
  induction l1 with
  | nil => simpa using h
  | cons c rest ih => simp [charsContains, ih]

theorem strContains_append_left (s t pat : String)
    (h : strContains t pat = true) : strContains (s ++ t) pat = true := by
  unfold strContains at h ⊢
  rw [show (s ++ t).toList = s.toList ++ t.toList from String.data_append s t]
  exact charsContains_append_left _ _ _ h

theorem totalLen_append (xs ys : List (List Nat)) :
    totalLen (xs ++ ys) = totalLen xs + totalLen ys := by
  simp [totalLen]

theorem readMessageBody_not_enough (messageLength : Nat) :
    ∀ (chunks acc : List (List Nat)),
      totalLen acc + totalLen chunks < messageLength →
      readMessageBody messageLength acc chunks = none := by
  intro chunks
  induction chunks with
  | nil => intro acc _; rfl
  | cons c rest ih =>
    intro acc h
    have hc : totalLen (c :: rest) = c.length + totalLen rest := by simp [totalLen]
    have ha : totalLen (acc ++ [c]) = totalLen acc + c.length := by
      simp [totalLen_append, totalLen]
    rw [readMessageBody]
    rw [if_neg (by omega)]
    exact ih (acc ++ [c]) (by omega)

theorem readUInt32LE_writeUInt32LE (n : Nat) (h : n < 4294967296) :
    readUInt32LE (writeUInt32LE n) = some n := by
  simp only [writeUInt32LE, readUInt32LE, Option.some.injEq]
  omega

theorem readMessageBody_cons (messageLength : Nat) (acc c rest) :
    readMessageBody messageLength acc (c :: rest)
      = if messageLength ≤ totalLen (acc ++ [c])
        then some (((acc ++ [c]).flatten).take messageLength)
        else readMessageBody messageLength (acc ++ [c]) rest := by
  rw [readMessageBody]

theorem isEmpty_false_of_ne (s : String) (h : s ≠ "") : s.isEmpty = false := by
  cases h1 : s.isEmpty
  · rfl
  · exact absurd ((String.isEmpty_iff s).mp h1) h

theorem getCachedToken_aux (a e : String) (ha : a ≠ "") (he : e ≠ "") :
    getCachedToken (.obj (some a) (some e)) = some ⟨a, e⟩ := by
  simp [getCachedToken, jsTruthy, isEmpty_false_of_ne a ha, isEmpty_false_of_ne e he]

/-! ## Claim theorems -/

/-- C9: getCachedToken never throws: it returns absent (`none`) for an
absent slot, for any stored text JSON.parse rejects (non-JSON or truncated),
and for a parsed object lacking a truthy accessToken or expiresOn field; on
a well-formed entry it returns the accessToken/expiresOn pair. -/
theorem getCachedToken_spec :
    getCachedToken .absent = none
    ∧ (∀ raw, getCachedToken (.malformed raw) = none)
    ∧ (∀ a e, (jsTruthy a && jsTruthy e) = false → getCachedToken (.obj a e) = none)
    ∧ (∀ a e, a ≠ "" → e ≠ "" →
        getCachedToken (.obj (some a) (some e)) = some ⟨a, e⟩) := by
  refine ⟨rfl, fun _ => rfl, fun a e h => ?_, fun a e ha he => ?_⟩
  · simp [getCachedToken, h]
  · exact getCachedToken_aux a e ha he

/-- C9 witness: a truncated JSON slot and a slot missing a non-empty
accessToken both read as absent; a well-formed slot reads as its pair. -/
theorem getCachedToken_spec_witness :
    getCachedToken (.malformed "\x7b\"accessToken\":\"ab") = none
    ∧ getCachedToken (.obj (some "") (some "2099-01-01T00:00:00Z")) = none
    ∧ getCachedToken (.obj (some "abc") (some "2099-01-01T00:00:00Z"))
        = some ⟨"abc", "2099-01-01T00:00:00Z"⟩ :=
  ⟨getCachedToken_spec.2.1 _,
   getCachedToken_spec.2.2.1 _ _ (by decide),
   getCachedToken_spec.2.2.2 "abc" "2099-01-01T00:00:00Z" (by decide) (by decide)⟩

/-- C4: handleAuthError matches the lowercased message against the fixed
keyword set, returns whether any keyword matched, and clears the cache slot
exactly when one did; the login message classifies as an auth error and
empties the cache, the not-found message does not and leaves the slot
untouched. -/
theorem handleAuthError_spec (slot : Stored) :
    (∀ msg, (handleAuthError msg slot).1
        = authKeywords.any (fun k => strContains (toLowerJS msg) k))
    ∧ (∀ msg, (handleAuthError msg slot).2
        = if (handleAuthError msg slot).1 then Stored.absent else slot)
    ∧ handleAuthError "Authentication failed. Try running: az login" slot
        = (true, Stored.absent)
    ∧ handleAuthError "Project or repository not found." slot = (false, slot) := by
  have hfst : ∀ msg, (handleAuthError msg slot).1 = isAuthErrorMsg msg := by
    intro msg
    cases h : isAuthErrorMsg msg <;> simp [handleAuthError, h]
  refine ⟨fun msg => (hfst msg).trans rfl, fun msg => ?_, ?_, ?_⟩
  · cases h : isAuthErrorMsg msg <;> simp [handleAuthError, h, clearCache]
  · have h : isAuthErrorMsg "Authentication failed. Try running: az login" = true := by
      decide
    simp [handleAuthError, h, clearCache]
  · have h : isAuthErrorMsg "Project or repository not found." = false := by decide
    simp [handleAuthError, h]

/-- C10: any message whose lowercased form contains one of the keywords is
classified as an auth error and wipes the cache slot; in particular the
native host reports a failed token fetch with exactly the message
fetchFailedMsg, which mentions the word token, so handleAuthError on it
returns true and clears the cache. -/
theorem tokenKeywordOverClear :
    (∀ msg slot k, k ∈ authKeywords → strContains (toLowerJS msg) k = true →
        handleAuthError msg slot = (true, Stored.absent))
    ∧ (∀ slot, handleAuthError fetchFailedMsg slot = (true, Stored.absent))
    ∧ (∀ env azPath accOut emsg stderrS stdoutS parse,
        findAzCli env = some azPath →
        ∃ d, (getAzureDevOpsToken env (.ok accOut) (.fail emsg stderrS stdoutS) parse).1
              = .err fetchFailedMsg d) := by
  have hkey : ∀ msg slot k, k ∈ authKeywords → strContains (toLowerJS msg) k = true →
      handleAuthError msg slot = (true, Stored.absent) := by
    intro msg slot k hk hc
    have h : isAuthErrorMsg msg = true := by
      unfold isAuthErrorMsg
      exact List.any_eq_true.mpr ⟨k, hk, hc⟩
    simp [handleAuthError, h, clearCache]
  refine ⟨hkey, fun slot => ?_, fun env azPath accOut emsg stderrS stdoutS parse hfind => ?_⟩
  · exact hkey _ _ "token" (by decide) (by decide)
  · refine ⟨some (joinDetails [stderrS, stdoutS, emsg]), ?_⟩
    simp [getAzureDevOpsToken, hfind]

/-- C2: isTokenValid is false on an absent or malformed slot; on a present
entry with a parseable expiry it is true iff the expiry minus now strictly
exceeds the 60-second buffer; consequently an entry expiring 31 seconds in
the future is invalid and getToken on it issues one relay round trip. -/
theorem isTokenValid_spec (dateParse : String → Option Int) (now : Int) :
    isTokenValid dateParse .absent now = false
    ∧ (∀ raw, isTokenValid dateParse (.malformed raw) now = false)
    ∧ (∀ acc exp expiryTime, acc ≠ "" → exp ≠ "" →
        dateParse exp = some expiryTime →
        (isTokenValid dateParse (.obj (some acc) (some exp)) now = true
          ↔ expiryTime - now > TOKEN_EXPIRY_BUFFER_MS))
    ∧ (∀ exp relay, exp ≠ "" → dateParse exp = some (now + 31000) →
        isTokenValid dateParse (.obj (some "old") (some exp)) now = false
        ∧ (getToken dateParse (.obj (some "old") (some exp)) now relay).relayCalls
            = 1) := by
  refine ⟨rfl, fun _ => rfl, fun acc exp expiryTime ha he hd => ?_,
    fun exp relay he hd => ?_⟩
  · have hc : getCachedToken (.obj (some acc) (some exp)) = some ⟨acc, exp⟩ :=
      getCachedToken_aux acc exp ha he
    simp [isTokenValid, hc, hd]
  · have hc : getCachedToken (.obj (some "old") (some exp)) = some ⟨"old", exp⟩ :=
      getCachedToken_aux "old" exp (by decide) he
    have hv : isTokenValid dateParse (.obj (some "old") (some exp)) now = false := by
      simp [isTokenValid, hc, hd, TOKEN_EXPIRY_BUFFER_MS]
    have hgv : getValidToken dateParse (.obj (some "old") (some exp)) now = none := by
      simp [getValidToken, hv]
    refine ⟨hv, ?_⟩
    simp only [getToken, hgv]
    cases relay with
    | reject msg => rfl
    | respond a e =>
      by_cases h : (jsTruthy a && jsTruthy e) = true <;> simp [h]

/-- C2 witness: with a parser sending the one expiry string to 31 seconds
after now, the entry is invalid and getToken issues one relay round trip. -/
theorem isTokenValid_spec_witness :
    isTokenValid (fun _ => some 31000) (.obj (some "old") (some "e")) 0 = false
    ∧ (getToken (fun _ => some 31000) (.obj (some "old") (some "e")) 0
        (.respond (some "new") (some "f"))).relayCalls = 1 :=
  (isTokenValid_spec (fun _ => some 31000) 0).2.2.2 "e"
    (.respond (some "new") (some "f")) (by decide) rfl

/-- C1: getToken returns a valid cached token with zero relay round trips;
otherwise it issues exactly one relay request, caching and returning a
response that carries both token and expiry, rethrowing a rejection, and
failing with the explicit no-token error when the response carries neither
a token nor an error; in the end-to-end scenario a first call on an empty
cache caches the "abc" token and an immediate second call returns "abc"
without contacting the relay. -/
theorem getToken_spec (dateParse : String → Option Int) (slot : Stored) (now : Int)
    (relay : RelayOutcome) :
    (∀ tok, getValidToken dateParse slot now = some tok →
        getToken dateParse slot now relay = ⟨.ok tok, slot, 0⟩)
    ∧ (getValidToken dateParse slot now = none →
        (getToken dateParse slot now relay).relayCalls = 1
        ∧ (∀ a e, relay = .respond (some a) (some e) → a ≠ "" → e ≠ "" →
            getToken dateParse slot now relay = ⟨.ok a, cacheToken a e, 1⟩)
        ∧ (∀ a e, relay = .respond a e → (jsTruthy a && jsTruthy e) = false →
            getToken dateParse slot now relay = ⟨.error noTokenMsg, slot, 1⟩)
        ∧ (∀ m, relay = .reject m →
            getToken dateParse slot now relay = ⟨.error m, slot, 1⟩))
    ∧ (∀ expiryTime, dateParse "2099-01-01T00:00:00Z" = some expiryTime →
        expiryTime - now > TOKEN_EXPIRY_BUFFER_MS →
        getToken dateParse .absent now
            (.respond (some "abc") (some "2099-01-01T00:00:00Z"))
          = ⟨.ok "abc", cacheToken "abc" "2099-01-01T00:00:00Z", 1⟩
        ∧ ∀ relay2, getToken dateParse
              (cacheToken "abc" "2099-01-01T00:00:00Z") now relay2
            = ⟨.ok "abc", cacheToken "abc" "2099-01-01T00:00:00Z", 0⟩) := by
  refine ⟨fun tok hv => ?_, fun hn => ⟨?_, fun a e hr ha he => ?_, fun a e hr hf => ?_,
    fun m hr => ?_⟩, fun expiryTime hd hT => ?_⟩
  · simp [getToken, hv]
  · simp only [getToken, hn]
    cases relay with
    | reject m => rfl
    | respond a e =>
      by_cases h : (jsTruthy a && jsTruthy e) = true <;> simp [h]
  · subst hr
    have hja : jsTruthy (some a) = true := by
      simp [jsTruthy, isEmpty_false_of_ne a ha]
    have hje : jsTruthy (some e) = true := by
      simp [jsTruthy, isEmpty_false_of_ne e he]
    simp [getToken, hn, hja, hje]
  · subst hr
    simp [getToken, hn, hf]
  · subst hr
    simp [getToken, hn]
  · have h1 : getToken dateParse .absent now
        (.respond (some "abc") (some "2099-01-01T00:00:00Z"))
        = ⟨.ok "abc", cacheToken "abc" "2099-01-01T00:00:00Z", 1⟩ := by
      have hn : getValidToken dateParse .absent now = none := rfl
      have hja : jsTruthy (some "abc") = true := by decide
      have hje : jsTruthy (some "2099-01-01T00:00:00Z") = true := by decide
      simp [getToken, hn, hja, hje]
    refine ⟨h1, fun relay2 => ?_⟩
    have hc : getCachedToken (cacheToken "abc" "2099-01-01T00:00:00Z")
        = some ⟨"abc", "2099-01-01T00:00:00Z"⟩ :=
      getCachedToken_aux _ _ (by decide) (by decide)
    have hv : isTokenValid dateParse (cacheToken "abc" "2099-01-01T00:00:00Z") now
        = true := by
      simp [isTokenValid, hc, hd]
      exact hT
    have hgv : getValidToken dateParse (cacheToken "abc" "2099-01-01T00:00:00Z") now
        = some "abc" := by
      simp [getValidToken, hv, hc]
      decide
    simp [getToken, hgv]

/-- C1 witness: with a parser sending the 2099 expiry far past now, the
first call on an empty cache caches and returns "abc" with one relay round
trip, and the second call returns "abc" with zero round trips. -/
theorem getToken_spec_witness :
    getToken (fun _ => some 4102444800000) .absent 0
        (.respond (some "abc") (some "2099-01-01T00:00:00Z"))
      = ⟨.ok "abc", cacheToken "abc" "2099-01-01T00:00:00Z", 1⟩
    ∧ getToken (fun _ => some 4102444800000)
        (cacheToken "abc" "2099-01-01T00:00:00Z") 0 (.reject "unreachable")
      = ⟨.ok "abc", cacheToken "abc" "2099-01-01T00:00:00Z", 0⟩ := by
  have h := (getToken_spec (fun _ => some 4102444800000) .absent 0
      (.respond (some "abc") (some "2099-01-01T00:00:00Z"))).2.2
      4102444800000 rfl (by decide)
  exact ⟨h.1, h.2 (.reject "unreachable")⟩

/-- C7: refreshToken ignores the previous slot and the fate of the
best-effort clear notification entirely: it always clears the slot, issues
one acquisition, caches and returns a token-bearing response, rethrows a
rejection, and throws the explicit no-token error on a tokenless response. -/
theorem refreshToken_spec (slot : Stored) (relay : RelayOutcome) :
    (∀ b1 b2 slot2, refreshToken b1 slot relay = refreshToken b2 slot2 relay)
    ∧ (∀ b m, relay = .reject m →
        refreshToken b slot relay = ⟨.error m, Stored.absent, 1⟩)
    ∧ (∀ b a e, relay = .respond (some a) (some e) → a ≠ "" → e ≠ "" →
        refreshToken b slot relay = ⟨.ok a, cacheToken a e, 1⟩)
    ∧ (∀ b a e, relay = .respond a e → (jsTruthy a && jsTruthy e) = false →
        refreshToken b slot relay = ⟨.error noTokenMsg, Stored.absent, 1⟩) := by
  refine ⟨fun b1 b2 slot2 => rfl, fun b m hr => ?_, fun b a e hr ha he => ?_,
    fun b a e hr hf => ?_⟩
  · subst hr; rfl
  · subst hr
    have hja : jsTruthy (some a) = true := by
      simp [jsTruthy, isEmpty_false_of_ne a ha]
    have hje : jsTruthy (some e) = true := by
      simp [jsTruthy, isEmpty_false_of_ne e he]
    simp [refreshToken, hja, hje]
  · subst hr
    simp [refreshToken, hf, clearCache]

/-- C7 witness: a refresh over a populated slot with a failing clear
notification still acquires and caches the new token; a tokenless response
yields the explicit error with the slot cleared. -/
theorem refreshToken_spec_witness :
    refreshToken true (cacheToken "old" "2000-01-01T00:00:00Z")
        (.respond (some "new") (some "2099-01-01T00:00:00Z"))
      = ⟨.ok "new", cacheToken "new" "2099-01-01T00:00:00Z", 1⟩
    ∧ refreshToken false .absent (.respond none none)
      = ⟨.error noTokenMsg, .absent, 1⟩ :=
  ⟨(refreshToken_spec (cacheToken "old" "2000-01-01T00:00:00Z")
      (.respond (some "new") (some "2099-01-01T00:00:00Z"))).2.2.1 true
      "new" "2099-01-01T00:00:00Z" rfl (by decide) (by decide),
   (refreshToken_spec .absent (.respond none none)).2.2.2 false none none rfl
      (by decide)⟩

/-- C3: readMessage never yields a body before the declared length is
satisfied: while the delivered chunks total fewer than the declared n bytes
it stays none; and a body split into chunks of sizes k and n-k (0 < k < n)
parses to the same bytes as the body delivered whole. -/
theorem readMessage_framing (body : List Nat) (k : Nat) :
    (∀ header n chunks, readUInt32LE header = some n → totalLen chunks < n →
        readMessage header chunks = none)
    ∧ (body.length < 4294967296 → 0 < k → k < body.length →
        readMessage (writeUInt32LE body.length) [body.take k, body.drop k]
            = some body
        ∧ readMessage (writeUInt32LE body.length) [body] = some body) := by
  constructor
  · intro header n chunks hh hlt
    rw [readMessage, hh]
    exact readMessageBody_not_enough n chunks [] (by simpa [totalLen] using hlt)
  · intro hsize hk1 hk2
    have hh := readUInt32LE_writeUInt32LE body.length hsize
    constructor
    · simp only [readMessage, hh]
      rw [readMessageBody_cons]
      have ht : totalLen ([] ++ [body.take k]) = k := by
        simp [totalLen]
        omega
      rw [if_neg (by rw [ht]; omega)]
      rw [readMessageBody_cons]
      have h2 : totalLen (([] ++ [body.take k]) ++ [body.drop k]) = body.length := by
        simp [totalLen]
        omega
      rw [if_pos (by rw [h2])]
      have h3 : (([] ++ [body.take k]) ++ [body.drop k]).flatten = body := by
        simp [List.take_append_drop]
      rw [h3, List.take_length]
    · simp only [readMessage, hh]
      rw [readMessageBody_cons]
      have ht : totalLen ([] ++ [body]) = body.length := by simp [totalLen]
      rw [if_pos (by rw [ht])]
      have h3 : ([] ++ [body]).flatten = body := by simp
      rw [h3, List.take_length]

/-- C3 witness: the frame of declared length 4 parses identically from one
chunk and from a 2/2 split, and stays unparsed on a 3-byte delivery. -/
theorem readMessage_framing_witness :
    readMessage (writeUInt32LE 4) [[1, 2], [3, 4]] = some [1, 2, 3, 4]
    ∧ readMessage (writeUInt32LE 4) [[1, 2, 3, 4]] = some [1, 2, 3, 4]
    ∧ readMessage (writeUInt32LE 4) [[1, 2, 3]] = none := by
  have h := readMessage_framing [1, 2, 3, 4] 2
  have h2 := h.2 (by decide) (by decide) (by decide)
  exact ⟨by simpa using h2.1, h2.2,
    h.1 (writeUInt32LE 4) 4 [[1, 2, 3]] (by decide) (by decide)⟩

/-- C5: when the CLI locator reports not-found, getAzureDevOpsToken answers
the tool-not-found error, whose message carries an install URL, and makes no
identity-tool invocation. -/
theorem toolNotFound_spec (env : HostEnv) (accountShow tokenFetch : ExecOutcome)
    (parse : String → ParsedJson) :
    findAzCli env = none →
    getAzureDevOpsToken env accountShow tokenFetch parse
        = (.err (azNotFoundMsg env.isWindows) none, [])
    ∧ strContains (azNotFoundMsg env.isWindows) "https://aka.ms/" = true := by
  intro h
  refine ⟨by simp [getAzureDevOpsToken, h], ?_⟩
  rw [azNotFoundMsg]
  cases env.isWindows
  · exact strContains_append_left _ _ _ (by decide)
  · exact strContains_append_left _ _ _ (by decide)

/-- C5 witness: on an environment with no CLI anywhere, the host run answers
the not-found error with the install URL and records zero spawns. -/
theorem toolNotFound_spec_witness :
    getAzureDevOpsToken envNoAz (.ok "") (.ok "") (fun _ => .invalid "")
        = (.err (azNotFoundMsg false) none, [])
    ∧ strContains (azNotFoundMsg false) "https://aka.ms/" = true := by
  have h := toolNotFound_spec envNoAz (.ok "") (.ok "") (fun _ => .invalid "")
    (by decide)
  exact ⟨h.1, by simpa using h.2⟩

/-- C6: a native port disconnecting with a lastError message (how Chrome
reports a host that failed to start, exited without responding, or a channel
that closed) resolves the pending request with the native-host-unavailable
error whose text hints at installing the host; a synchronous connect
exception and a host message also always resolve the request. -/
theorem relayFailure_spec (m : String) (r : HostMsg) :
    relayGetToken (.disconnected (some m)) = some (.err (nativeHostErrMsg m) none)
    ∧ strContains (nativeHostErrMsg m) "Make sure the native host is installed."
        = true
    ∧ (relayGetToken (.connectThrew m)).isSome = true
    ∧ (relayGetToken (.message r)).isSome = true := by
  refine ⟨rfl, ?_, rfl, by simp [relayGetToken]⟩
  rw [nativeHostErrMsg]
  exact strContains_append_left _ _ _ (by decide)

/-- C8 counterexample: a login probe failing with an ETIMEDOUT message is
reported with exactly the not-logged-in error, not a distinct timeout
category (the distinct timed-out message exists but is not used here). -/
theorem loginProbeTimeout_cex :
    (getAzureDevOpsToken envFound (.fail "Command failed: ETIMEDOUT" "" "")
        (.ok "") (fun _ => .invalid "")).1
      = .err notLoggedInMsg (some "Command failed: ETIMEDOUT")
    ∧ notLoggedInMsg ≠ timedOutMsg
    ∧ strContains (toLowerJS notLoggedInMsg) "timed out" = false := by
  refine ⟨?_, by decide, by decide⟩
  simp only [getAzureDevOpsToken, envFound, findAzCli, joinDetails]
  decide

/-- C8 amended: every identity-tool invocation of the host uses a bounded
timeout, 10s for the login probe and 30s for the token fetch, but a timeout
is not surfaced as a distinct category for those invocations: a login-probe
timeout is reported as the not-logged-in error and a token-fetch timeout as
the generic fetch failure; only exceptions reaching the outer handler are
classified with the distinct timed-out message. -/
theorem hostTimeouts_amended (env : HostEnv) (accountShow tokenFetch : ExecOutcome)
    (parse : String → ParsedJson) :
    ((getAzureDevOpsToken env accountShow tokenFetch parse).2 = []
      ∨ ∃ azPath, findAzCli env = some azPath
          ∧ ((getAzureDevOpsToken env accountShow tokenFetch parse).2
                = [accountShowSpawn azPath]
             ∨ (getAzureDevOpsToken env accountShow tokenFetch parse).2
                = [accountShowSpawn azPath, fetchTokenSpawn azPath]))
    ∧ (∀ azPath, (accountShowSpawn azPath).timeoutMs = 10000
        ∧ (fetchTokenSpawn azPath).timeoutMs = 30000)
    ∧ (∀ emsg stderrS stdoutS azPath, strContains emsg "ETIMEDOUT" = true →
        findAzCli env = some azPath →
        (getAzureDevOpsToken env (.fail emsg stderrS stdoutS) tokenFetch parse).1
          = .err notLoggedInMsg (some (joinDetails [stderrS, stdoutS, emsg])))
    ∧ (∀ emsg stderrS stdoutS res azPath, strContains emsg "ETIMEDOUT" = true →
        findAzCli env = some azPath →
        (getAzureDevOpsToken env (.ok res) (.fail emsg stderrS stdoutS) parse).1
          = .err fetchFailedMsg (some (joinDetails [stderrS, stdoutS, emsg])))
    ∧ (∀ emsg, strContains emsg "ETIMEDOUT" = true →
        ∃ d, classifyOuter emsg "" "" = .err timedOutMsg d) := by
  refine ⟨?_, fun azPath => ⟨rfl, rfl⟩,
    fun emsg stderrS stdoutS azPath _ hf => by simp [getAzureDevOpsToken, hf],
    fun emsg stderrS stdoutS res azPath _ hf => by simp [getAzureDevOpsToken, hf],
    fun emsg h => ⟨some (joinDetails ["", "", emsg]), by simp [classifyOuter, h]⟩⟩
  cases hf : findAzCli env with
  | none => left; simp [getAzureDevOpsToken, hf]
  | some azPath =>
    right
    refine ⟨azPath, rfl, ?_⟩
    cases accountShow with
    | fail emsg se so => left; simp [getAzureDevOpsToken, hf]
    | ok out =>
      right
      cases tokenFetch with
      | fail emsg se so => simp [getAzureDevOpsToken, hf]
      | ok res =>
        cases hp : parse res.trim with
        | invalid emsg => simp [getAzureDevOpsToken, hf, hp]
        | obj a e =>
          by_cases h : jsTruthy a = true <;> simp [getAzureDevOpsToken, hf, hp, h]

/-- C8 amended witness: a login-probe timeout on a found CLI yields the
not-logged-in error. -/
theorem hostTimeouts_amended_witness :
    (getAzureDevOpsToken envFound (.fail "ETIMEDOUT" "" "") (.ok "")
        (fun _ => .invalid "")).1
      = .err notLoggedInMsg (some (joinDetails ["", "", "ETIMEDOUT"])) :=
  (hostTimeouts_amended envFound (.fail "ETIMEDOUT" "" "") (.ok "")
      (fun _ => .invalid "")).2.2.1 "ETIMEDOUT" "" "" "az" (by decide) (by decide)

/-- C10 witness: the host fetch-failure message is classified as an auth
error and clears a previously valid cache entry, and a host run whose token
fetch fails reports exactly that message. -/
theorem tokenKeywordOverClear_witness :
    handleAuthError "Failed to get access token" (cacheToken "abc" "2099-01-01T00:00:00Z")
      = (true, Stored.absent)
    ∧ (∃ d, (getAzureDevOpsToken envFound (.ok "ok") (.fail "boom" "" "")
          (fun _ => .invalid "x")).1 = .err fetchFailedMsg d) :=
  ⟨tokenKeywordOverClear.1 _ _ "token" (by decide) (by decide),
   tokenKeywordOverClear.2.2 envFound "az" "ok" "boom" "" "" _ (by decide)⟩

end HelloDev
